import Mathlib

/-!
Verification of the OzzServe booking core against its specification.

The definitions below are a shallow embedding of the TypeScript source:
* `apps/api/src/logic/state-machine.ts` — the transition table and its lookup;
* `apps/api/src/logic/bookings.ts` — the booking operations
  (`updateBookingStatus`, `cancelBooking`, `providerCancelBooking`,
  `flagIssue`, `completeBooking`, `sweepExpiredBookings`);
* the payments module (`createIntent` / `capturePayment` /
  `releaseAuthorization` / `chargeCancellationFee`);
* the relevant route handlers of `apps/api/src/app.ts`.

Every booking mutation in the source runs inside a transaction holding a
`SELECT ... FOR UPDATE` row lock on the booking, so mutations of a single
booking are strictly serialized.  The embedding therefore models one booking
as a `Store` value and each operation as a pure function `Store → result ×
Store`; concurrency over a booking is modelled as an arbitrary serialization
order of the competing operations.  Timestamps are seconds as `Nat`;
randomness (OTP digits, provider-reference suffixes) is passed in as
parameters; the external payment SDK is a `StripeEnv` parameter.
-/

namespace OzzServe

/-- Booking lifecycle states, from `state-machine.ts` (`BookingState`). -/
inductive BookingState
  | PENDING_PAYMENT
  | PAID_SEARCHING
  | ACCEPTED
  | EN_ROUTE
  | ARRIVED
  | IN_PROGRESS
  | COMPLETE_PENDING
  | CLOSED
  | CANCELLED
  | EXPIRED
  | NEEDS_REVIEW
  deriving DecidableEq, Repr, Fintype

/-- Acting roles, from `state-machine.ts` (`UserRole`). -/
inductive UserRole
  | User
  | System
  | Provider
  | Admin
  deriving DecidableEq, Repr, Fintype

/-- One entry of the transition table, from `state-machine.ts` (`Transition`). -/
structure Transition where
  dst : BookingState
  who : UserRole
  deriving DecidableEq, Repr

/-- The transition table of `state-machine.ts` (`allowedTransitions`).
`none` stands for the `'NULL'` key (booking creation). -/
def allowedTransitions : Option BookingState → List Transition
  | none => [⟨.PENDING_PAYMENT, .User⟩]
  | some .PENDING_PAYMENT =>
      [⟨.PAID_SEARCHING, .System⟩, ⟨.CANCELLED, .User⟩, ⟨.EXPIRED, .System⟩]
  | some .PAID_SEARCHING =>
      [⟨.ACCEPTED, .Provider⟩, ⟨.EXPIRED, .System⟩, ⟨.CANCELLED, .User⟩]
  | some .ACCEPTED =>
      [⟨.EN_ROUTE, .Provider⟩, ⟨.CANCELLED, .User⟩, ⟨.CANCELLED, .Provider⟩,
       ⟨.PAID_SEARCHING, .Provider⟩]
  | some .EN_ROUTE =>
      [⟨.ARRIVED, .Provider⟩, ⟨.CANCELLED, .User⟩, ⟨.CANCELLED, .Provider⟩,
       ⟨.PAID_SEARCHING, .Provider⟩]
  | some .ARRIVED =>
      [⟨.IN_PROGRESS, .Provider⟩, ⟨.CANCELLED, .User⟩, ⟨.CANCELLED, .Provider⟩]
  | some .IN_PROGRESS => [⟨.COMPLETE_PENDING, .Provider⟩]
  | some .COMPLETE_PENDING => [⟨.CLOSED, .System⟩, ⟨.NEEDS_REVIEW, .User⟩]
  | some .CLOSED => []
  | some .CANCELLED => []
  | some .EXPIRED => []
  | some .NEEDS_REVIEW => [⟨.CLOSED, .Admin⟩, ⟨.CANCELLED, .Admin⟩]

/-- `isValidTransition` from `state-machine.ts`: membership lookup against
`allowedTransitions`. -/
def isValidTransition (src : Option BookingState) (t : BookingState) (r : UserRole) : Bool :=
  (allowedTransitions src).any fun tr => tr.dst == t && tr.who == r

/-- The transition table of spec section 4.1, written down independently from
the spec's own table (one clause per table row), to compare against the code's
`allowedTransitions`. -/
def spec41Allows (src t : BookingState) (r : UserRole) : Bool :=
  match src, t, r with
  | .PENDING_PAYMENT, .PAID_SEARCHING, .System => true
  | .PENDING_PAYMENT, .CANCELLED, .User => true
  | .PENDING_PAYMENT, .EXPIRED, .System => true
  | .PAID_SEARCHING, .ACCEPTED, .Provider => true
  | .PAID_SEARCHING, .CANCELLED, .User => true
  | .PAID_SEARCHING, .EXPIRED, .System => true
  | .ACCEPTED, .EN_ROUTE, .Provider => true
  | .ACCEPTED, .PAID_SEARCHING, .Provider => true
  | .ACCEPTED, .CANCELLED, .User => true
  | .ACCEPTED, .CANCELLED, .Provider => true
  | .EN_ROUTE, .ARRIVED, .Provider => true
  | .EN_ROUTE, .PAID_SEARCHING, .Provider => true
  | .EN_ROUTE, .CANCELLED, .User => true
  | .EN_ROUTE, .CANCELLED, .Provider => true
  | .ARRIVED, .IN_PROGRESS, .Provider => true
  | .ARRIVED, .CANCELLED, .User => true
  | .ARRIVED, .CANCELLED, .Provider => true
  | .IN_PROGRESS, .COMPLETE_PENDING, .Provider => true
  | .COMPLETE_PENDING, .CLOSED, .System => true
  | .COMPLETE_PENDING, .NEEDS_REVIEW, .User => true
  | .NEEDS_REVIEW, .CLOSED, .Admin => true
  | .NEEDS_REVIEW, .CANCELLED, .Admin => true
  | _, _, _ => false

/-- The code's transition table and the spec's section-4.1 table agree. -/
theorem isValidTransition_eq_spec41 :
    ∀ src t r, isValidTransition (some src) t r = spec41Allows src t r := by
  decide

/-- Payment-intent statuses (column `status` of `payment_intents`). -/
inductive IntentStatus
  | CREATED
  | AUTHORIZED
  | SUCCEEDED
  | CANCELLED
  | FAILED
  deriving DecidableEq, Repr

/-- A `payment_intents` row (payments module, `PaymentIntent`). -/
structure PaymentIntent where
  booking_id : String
  amount_cents : Nat
  currency : String
  status : IntentStatus
  provider : String
  provider_ref : String
  deriving DecidableEq, Repr

/-- A `booking_events` audit row. -/
structure BookingEvent where
  booking_id : String
  type : String
  actor_role : Option UserRole
  actor_id : Option String
  deriving DecidableEq, Repr

/-- A `notification_outbox` row. -/
structure OutboxRow where
  booking_id : String
  recipient_uid : String
  type : String
  deriving DecidableEq, Repr

/-- A `bookings` row (`Booking` in `bookings.ts`); timestamps are seconds. -/
structure Booking where
  id : String
  status : BookingState
  customer_id : String
  provider_id : Option String
  service_id : String
  slot_id : String
  candidate_list : List String
  otp : String
  expires_at : Nat
  complete_pending_until : Option Nat
  created_at : Nat
  updated_at : Nat
  deriving DecidableEq, Repr

/-- The transactional store, restricted to a single booking and the rows it
owns.  The `SELECT ... FOR UPDATE` row lock serializes all mutators of a
booking, so each operation acts on this store atomically.  `captureCalls`
counts invocations of the payment-capture step (external SDK attempts); it is
model bookkeeping, not a database column. -/
structure Store where
  booking : Booking
  intents : List PaymentIntent
  events : List BookingEvent
  outbox : List OutboxRow
  captureCalls : Nat
  deriving DecidableEq, Repr

/-- Error sites of the booking engine; each constructor corresponds to one
distinct error string of the source. -/
inductive BErr
  | notFound
  | invalidTransition (src dst : BookingState) (role : UserRole)
  | invalidOtp
  | providerIdRequired
  | claimedByAnotherProvider
  | notInCandidateList
  | statusDrift
  | unauthorizedCancel
  | cannotCancelIn (st : BookingState)
  | notAssignedProvider
  | notBookingOwner
  | notCompletePending
  | graceWindowClosed
  | invalidStateFor (st : BookingState)
  | noAuthorizedIntent
  | stripeCaptureFailed
  | captureFailed
  deriving DecidableEq, Repr

/-- `code` values of `completeBooking`'s result. -/
inductive ErrCode
  | UNAUTHORIZED
  | INVALID_STATE
  | CAPTURE_FAILED
  deriving DecidableEq, Repr

/-- The `{ ok, error?, code? }` result shape of the booking engine. -/
structure OpResult where
  ok : Bool
  error : Option BErr := none
  code : Option ErrCode := none
  deriving DecidableEq, Repr

/-- Failure result carrying an error site. -/
def OpResult.err (e : BErr) : OpResult := { ok := false, error := some e }

/-- Successful result. -/
def OpResult.success : OpResult := { ok := true }

/-- Event type string `transition_<status lowercased>` written by
`updateBookingStatus`. -/
def transitionEventType : BookingState → String
  | .PENDING_PAYMENT => "transition_pending_payment"
  | .PAID_SEARCHING => "transition_paid_searching"
  | .ACCEPTED => "transition_accepted"
  | .EN_ROUTE => "transition_en_route"
  | .ARRIVED => "transition_arrived"
  | .IN_PROGRESS => "transition_in_progress"
  | .COMPLETE_PENDING => "transition_complete_pending"
  | .CLOSED => "transition_closed"
  | .CANCELLED => "transition_cancelled"
  | .EXPIRED => "transition_expired"
  | .NEEDS_REVIEW => "transition_needs_review"

/-- The role-specific enforcement block (step 3) of `updateBookingStatus`:
a Provider actor must be identified, must be the assigned provider of a
claimed booking, and must be a candidate of an unclaimed one. -/
def providerGuard (role : UserRole) (actorId : Option String)
    (provider_id : Option String) (candidates : List String) : Option BErr :=
  if role = UserRole.Provider then
    match actorId with
    | none => some BErr.providerIdRequired
    | some a =>
      match provider_id with
      | some p => if p ≠ a then some BErr.claimedByAnotherProvider else none
      | none => if a ∈ candidates then none else some BErr.notInCandidateList
  else none

/-- `updateBookingStatus` from `bookings.ts`.  The booking row is read under
`FOR UPDATE`; since that serializes mutators, the conditional
`WHERE status = <currentStatus>` of the final UPDATE always matches and the
status-drift branch is unreachable, but it is kept to mirror the source. -/
def updateBookingStatus (s : Store) (nextStatus : BookingState) (role : UserRole)
    (actorId : Option String) (otp : Option String) (now : Nat) : OpResult × Store :=
  let b := s.booking
  let currentStatus := b.status
  let candidates := b.candidate_list
  let correctOtp := b.otp
  -- 2. Validate transition
  if ¬ isValidTransition (some currentStatus) nextStatus role then
    (OpResult.err (BErr.invalidTransition currentStatus nextStatus role), s)
  -- 2b. OTP verification for IN_PROGRESS
  else if nextStatus = BookingState.IN_PROGRESS ∧ currentStatus = BookingState.ARRIVED
      ∧ (otp = none ∨ otp ≠ some correctOtp) then
    (OpResult.err BErr.invalidOtp, s)
  else
    -- 3. Role-specific enforcement (ownership and candidates)
    match providerGuard role actorId b.provider_id candidates with
    | some e => (OpResult.err e, s)
    | none =>
      -- 4. Atomic update (`WHERE id = ? AND status = <currentStatus>`)
      if b.status ≠ currentStatus then
        (OpResult.err BErr.statusDrift, s)
      else
        let newProviderId :=
          match b.provider_id with
          | some p => some p
          | none => if role = UserRole.Provider then actorId else none
        let b' := { b with
          status := nextStatus
          updated_at := now
          provider_id := newProviderId
          complete_pending_until :=
            if nextStatus = BookingState.COMPLETE_PENDING then some (now + 1800)
            else b.complete_pending_until }
        -- 5. Log event
        let ev : BookingEvent :=
          { booking_id := b.id, type := transitionEventType nextStatus
            actor_role := some role, actor_id := actorId }
        (OpResult.success, { s with booking := b', events := s.events ++ [ev] })

/-- `releaseAuthorization` from the payments module: void the booking's
`AUTHORIZED` intents. -/
def releaseAuthorization (bid : String) (intents : List PaymentIntent) :
    List PaymentIntent :=
  intents.map fun i =>
    if i.booking_id = bid ∧ i.status = IntentStatus.AUTHORIZED then
      { i with status := IntentStatus.CANCELLED }
    else i

/-- The fee row inserted by `chargeCancellationFee` (payments module): a new
`SUCCEEDED` intent of 1000 cents with a `pi_fee_`-prefixed reference. -/
def cancellationFeeIntent (bid : String) (rand : String) : PaymentIntent :=
  { booking_id := bid, amount_cents := 1000, currency := "ZAR"
    status := IntentStatus.SUCCEEDED, provider := "STRIPE"
    provider_ref := "pi_fee_" ++ rand }

/-- `cancelBooking` from `bookings.ts`. `feeRand` stands for the random
suffix of the fee reference. -/
def cancelBooking (s : Store) (role : UserRole) (actorId : String)
    (feeRand : String) (now : Nat) : OpResult × Store :=
  let b := s.booking
  let currentStatus := b.status
  if role = UserRole.User ∧ b.customer_id ≠ actorId then
    (OpResult.err BErr.unauthorizedCancel, s)
  else if ¬ isValidTransition (some currentStatus) BookingState.CANCELLED role then
    (OpResult.err (BErr.cannotCancelIn currentStatus), s)
  else
    let needsFee := currentStatus = BookingState.EN_ROUTE
        ∨ currentStatus = BookingState.ARRIVED
    -- 1. Release original authorization (if any)
    let intents1 := releaseAuthorization b.id s.intents
    -- 2. Charge fee if applicable
    let intents2 :=
      if needsFee then intents1 ++ [cancellationFeeIntent b.id feeRand] else intents1
    -- 3. Update status, 4. log event
    let b' := { b with status := BookingState.CANCELLED, updated_at := now }
    let ev : BookingEvent :=
      { booking_id := b.id, type := "transition_cancelled"
        actor_role := some role, actor_id := some actorId }
    (OpResult.success,
     { s with booking := b', intents := intents2, events := s.events ++ [ev] })

/-- `providerCancelBooking` from `bookings.ts` (re-dispatch flow). -/
def providerCancelBooking (s : Store) (providerId : String) (now : Nat) :
    OpResult × Store :=
  let b := s.booking
  if b.provider_id ≠ some providerId then
    (OpResult.err BErr.notAssignedProvider, s)
  else if ¬ isValidTransition (some b.status) BookingState.PAID_SEARCHING
      UserRole.Provider then
    (OpResult.err
      (BErr.invalidTransition b.status BookingState.PAID_SEARCHING UserRole.Provider), s)
  else
    -- 1. Revert status to PAID_SEARCHING and clear provider_id
    let b' := { b with
      status := BookingState.PAID_SEARCHING, provider_id := none, updated_at := now }
    -- 2. Log event, 3. queue customer notification
    let ev : BookingEvent :=
      { booking_id := b.id, type := "provider_cancelled"
        actor_role := some UserRole.Provider, actor_id := some providerId }
    let nb : OutboxRow :=
      { booking_id := b.id, recipient_uid := b.customer_id, type := "PROVIDER_CANCELLED" }
    (OpResult.success,
     { s with booking := b', events := s.events ++ [ev], outbox := s.outbox ++ [nb] })

/-- `flagIssue` from `bookings.ts` (customer issue flag in the grace window). -/
def flagIssue (s : Store) (customerId : String) (_reason : String) (now : Nat) :
    OpResult × Store :=
  let b := s.booking
  if b.customer_id ≠ customerId then
    (OpResult.err BErr.notBookingOwner, s)
  else if b.status ≠ BookingState.COMPLETE_PENDING then
    (OpResult.err BErr.notCompletePending, s)
  else
    match b.complete_pending_until with
    | none => (OpResult.err BErr.graceWindowClosed, s)
    | some deadline =>
      if deadline < now then (OpResult.err BErr.graceWindowClosed, s)
      else
        -- 1. Transition to NEEDS_REVIEW, 2. log event, 3. notify admin
        let b' := { b with status := BookingState.NEEDS_REVIEW, updated_at := now }
        let ev : BookingEvent :=
          { booking_id := b.id, type := "issue_flagged"
            actor_role := some UserRole.User, actor_id := some customerId }
        let nb : OutboxRow :=
          { booking_id := b.id, recipient_uid := "SYSTEM_ADMIN", type := "ISSUE_FLAGGED" }
        (OpResult.success,
         { s with booking := b', events := s.events ++ [ev], outbox := s.outbox ++ [nb] })

/-- External payment SDK configuration: `configured` is whether a Stripe
secret key is present; `captureOk` is the outcome of an SDK capture call when
one is actually issued. -/
structure StripeEnv where
  configured : Bool
  captureOk : Bool
  deriving DecidableEq, Repr

/-- `capturePayment` from the payments module: locate the booking's
`AUTHORIZED` intent (raise if none), call the external SDK iff the reference
is a real (non-mock) id, then update the intent to `SUCCEEDED`.  The final
rowCount-zero throw is unreachable once the lookup succeeded and is omitted. -/
def capturePayment (env : StripeEnv) (bid : String) (intents : List PaymentIntent) :
    Except BErr (List PaymentIntent) :=
  match intents.find? (fun i => i.booking_id == bid && i.status == IntentStatus.AUTHORIZED) with
  | none => Except.error BErr.noAuthorizedIntent
  | some i =>
    if env.configured ∧ i.provider_ref.startsWith "pi_"
        ∧ ¬ i.provider_ref.startsWith "pi_mock_" ∧ ¬ env.captureOk then
      Except.error BErr.stripeCaptureFailed
    else
      Except.ok (intents.map fun j =>
        if j.booking_id = bid ∧ j.status = IntentStatus.AUTHORIZED then
          { j with status := IntentStatus.SUCCEEDED }
        else j)

/-- `completeBooking` from `bookings.ts`: verify assignment and
`IN_PROGRESS`, attempt capture; on capture failure commit the audit event and
the `CAPTURE_FAILED` outbox row and return `CAPTURE_FAILED` (status
untouched); on success advance to `COMPLETE_PENDING`.  A failure of the inner
`updateBookingStatus` is thrown, which rolls the transaction back — modelled
by returning the original store. -/
def completeBooking (s : Store) (providerId : String) (env : StripeEnv) (now : Nat) :
    OpResult × Store :=
  let b := s.booking
  if b.provider_id ≠ some providerId then
    ({ ok := false, error := some BErr.claimedByAnotherProvider
       code := some ErrCode.UNAUTHORIZED }, s)
  else if b.status ≠ BookingState.IN_PROGRESS then
    ({ ok := false, error := some (BErr.invalidStateFor b.status)
       code := some ErrCode.INVALID_STATE }, s)
  else
    let s0 := { s with captureCalls := s.captureCalls + 1 }
    match capturePayment env b.id s.intents with
    | Except.error _ =>
      let ev : BookingEvent :=
        { booking_id := b.id, type := "capture_failed"
          actor_role := some UserRole.Provider, actor_id := some providerId }
      let nb : OutboxRow :=
        { booking_id := b.id, recipient_uid := "SYSTEM_ADMIN", type := "CAPTURE_FAILED" }
      ({ ok := false, error := some BErr.captureFailed
         code := some ErrCode.CAPTURE_FAILED },
       { s0 with events := s0.events ++ [ev], outbox := s0.outbox ++ [nb] })
    | Except.ok intents2 =>
      let step := updateBookingStatus { s0 with intents := intents2 }
        BookingState.COMPLETE_PENDING UserRole.Provider (some providerId) none now
      if step.1.ok then (OpResult.success, step.2) else (step.1, s)

/-- The per-row effect of `sweepExpiredBookings`' single UPDATE:
`status = PENDING_PAYMENT AND created_at < now - 24h` rows become `EXPIRED`. -/
def sweepOne (now : Nat) (b : Booking) : Booking :=
  if b.status = BookingState.PENDING_PAYMENT ∧ b.created_at + 86400 < now then
    { b with status := BookingState.EXPIRED, updated_at := now }
  else b

/-- `sweepExpiredBookings` from `bookings.ts`: the sweeping UPDATE over the
whole `bookings` table, returning the affected-row count. -/
def sweepExpiredBookings (now : Nat) (bookings : List Booking) :
    Nat × List Booking :=
  (bookings.countP fun b =>
     decide (b.status = BookingState.PENDING_PAYMENT ∧ b.created_at + 86400 < now),
   bookings.map (sweepOne now))

/-- Lowercase HTTP roles of the auth layer (`role ∈ {user, provider, admin}`). -/
inductive AuthRole
  | user
  | provider
  | admin
  deriving DecidableEq, Repr

/-- The booking as serialized by `GET /v1/bookings/:id`: all booking fields,
with `otp` optional because the handler deletes it for non-owners. -/
structure BookingView where
  id : String
  status : BookingState
  customer_id : String
  provider_id : Option String
  service_id : String
  slot_id : String
  candidate_list : List String
  otp : Option String
  expires_at : Nat
  complete_pending_until : Option Nat
  created_at : Nat
  updated_at : Nat
  deriving DecidableEq, Repr

/-- Serialization of a booking row, keeping `otp` only when requested. -/
def bookingView (b : Booking) (includeOtp : Bool) : BookingView :=
  { id := b.id, status := b.status, customer_id := b.customer_id
    provider_id := b.provider_id, service_id := b.service_id, slot_id := b.slot_id
    candidate_list := b.candidate_list
    otp := if includeOtp then some b.otp else none
    expires_at := b.expires_at, complete_pending_until := b.complete_pending_until
    created_at := b.created_at, updated_at := b.updated_at }

/-- Responses of `GET /v1/bookings/:id`. -/
inductive GetBookingResp
  | notFound
  | forbidden
  | ok (v : BookingView)
  deriving DecidableEq, Repr

/-- The `GET /v1/bookings/:id` handler of `app.ts`: authorize customer,
assigned provider, candidate or admin; strip the OTP for everyone except the
owning customer and admins. -/
def getBookingRoute (b? : Option Booking) (uid : String) (role : AuthRole) :
    GetBookingResp :=
  match b? with
  | none => GetBookingResp.notFound
  | some booking =>
    let isCustomer := booking.customer_id = uid
    let isAssignedProvider := booking.provider_id = some uid
    let isCandidate := uid ∈ booking.candidate_list
    let isAdmin := role = AuthRole.admin
    if ¬ isCustomer ∧ ¬ isAssignedProvider ∧ ¬ isCandidate ∧ ¬ isAdmin then
      GetBookingResp.forbidden
    else
      GetBookingResp.ok (bookingView booking (isCustomer ∨ isAdmin))

/-- HTTP-level outcomes of the completion routes. -/
inductive HttpResp
  | ok (status : BookingState) (alreadyClosed : Bool)
  | forbidden
  | badRequest
  | captureConflict
  deriving DecidableEq, Repr

/-- The `POST /v1/bookings/:id/provider-complete` handler of `app.ts`:
assigned provider moves `IN_PROGRESS` to `COMPLETE_PENDING` with no capture. -/
def providerCompleteRoute (s : Store) (uid : String) (now : Nat) :
    HttpResp × Store :=
  let b := s.booking
  if b.provider_id ≠ some uid then (HttpResp.forbidden, s)
  else if b.status ≠ BookingState.IN_PROGRESS then (HttpResp.badRequest, s)
  else
    let step := updateBookingStatus s BookingState.COMPLETE_PENDING
      UserRole.Provider (some uid) none now
    if step.1.ok then (HttpResp.ok BookingState.COMPLETE_PENDING false, step.2)
    else (HttpResp.badRequest, step.2)

/-- The `POST /v1/bookings/:id/confirm-complete` handler of `app.ts`: owner
check; if already `CLOSED` return success without re-capturing; else require
`COMPLETE_PENDING`, capture, then transition to `CLOSED` as System. -/
def confirmCompleteRoute (s : Store) (uid : String) (env : StripeEnv) (now : Nat) :
    HttpResp × Store :=
  let b := s.booking
  if b.customer_id ≠ uid then (HttpResp.forbidden, s)
  else if b.status = BookingState.CLOSED then
    (HttpResp.ok BookingState.CLOSED true, s)
  else if b.status ≠ BookingState.COMPLETE_PENDING then (HttpResp.badRequest, s)
  else
    let s0 := { s with captureCalls := s.captureCalls + 1 }
    match capturePayment env b.id s.intents with
    | Except.error _ => (HttpResp.captureConflict, s0)
    | Except.ok intents2 =>
      let step := updateBookingStatus { s0 with intents := intents2 }
        BookingState.CLOSED UserRole.System (some uid) none now
      if step.1.ok then (HttpResp.ok BookingState.CLOSED false, step.2)
      else (HttpResp.badRequest, step.2)

/-- One `POST /v1/bookings/:id/accept` attempt: the route calls
`updateBookingStatus(id, 'ACCEPTED', 'Provider', uid)`. -/
def acceptAttempt (s : Store) (uid : String) (now : Nat) : OpResult × Store :=
  updateBookingStatus s BookingState.ACCEPTED UserRole.Provider (some uid) none now

/-- A set of concurrent accept attempts, in their row-lock serialization
order: the booking's `FOR UPDATE` lock admits exactly one mutator at a time,
so any concurrent execution is equivalent to some sequential order. -/
def runAccepts (s : Store) (uids : List String) (now : Nat) :
    List OpResult × Store :=
  match uids with
  | [] => ([], s)
  | u :: rest =>
    let first := acceptAttempt s u now
    let later := runAccepts first.2 rest now
    (first.1 :: later.1, later.2)

/-- The booking-mutating operations of `bookings.ts` acting on one booking
(the sweeper, which scans the whole table, is treated separately). -/
inductive BookingOp
  | update (nextStatus : BookingState) (role : UserRole)
      (actorId : Option String) (otp : Option String)
  | cancel (role : UserRole) (actorId : String) (feeRand : String)
  | providerCancel (providerId : String)
  | flag (customerId : String) (reason : String)
  | complete (providerId : String) (env : StripeEnv)
  deriving Repr

/-- Dispatch of a booking operation. -/
def applyOp (s : Store) (op : BookingOp) (now : Nat) : OpResult × Store :=
  match op with
  | BookingOp.update nextStatus role actorId otp =>
      updateBookingStatus s nextStatus role actorId otp now
  | BookingOp.cancel role actorId feeRand => cancelBooking s role actorId feeRand now
  | BookingOp.providerCancel providerId => providerCancelBooking s providerId now
  | BookingOp.flag customerId reason => flagIssue s customerId reason now
  | BookingOp.complete providerId env => completeBooking s providerId env now

/-- The role each operation acts under (`flagIssue` is the customer's issue
flag; `completeBooking` is invoked by the assigned provider). -/
def actingRole : BookingOp → UserRole
  | BookingOp.update _ role _ _ => role
  | BookingOp.cancel role _ _ => role
  | BookingOp.providerCancel _ => UserRole.Provider
  | BookingOp.flag _ _ => UserRole.User
  | BookingOp.complete _ _ => UserRole.Provider

/-- `webhook_events.status` values. -/
inductive WebhookStatus
  | PENDING
  | PROCESSED
  | FAILED
  deriving DecidableEq, Repr

/-- A `webhook_events` row, unique on `(provider, event_id)`. -/
structure WebhookEvent where
  provider : String
  event_id : String
  status : WebhookStatus
  deriving DecidableEq, Repr

/-- The idempotency ledger table. -/
abbrev Ledger := List WebhookEvent

/-- `SELECT status FROM webhook_events WHERE provider=? AND event_id=?`. -/
def ledgerLookup : Ledger → String → String → Option WebhookStatus
  | [], _, _ => none
  | w :: rest, p, e =>
    if w.provider = p ∧ w.event_id = e then some w.status else ledgerLookup rest p e

/-- Upsert on the `(provider, event_id)` unique key: update the existing row
or append a fresh one. -/
def ledgerSet : Ledger → String → String → WebhookStatus → Ledger
  | [], p, e, st => [{ provider := p, event_id := e, status := st }]
  | w :: rest, p, e, st =>
    if w.provider = p ∧ w.event_id = e then
      { w with status := st } :: rest
    else
      w :: ledgerSet rest p e st

/-- Result values returned by `processEvent`. -/
inductive ProcessOutcome
  | PROCESSED
  | DUPLICATE
  deriving DecidableEq, Repr

/-- Return of one `processEvent` call: either a value or the propagated
handler error. -/
inductive ProcessReturn
  | value (o : ProcessOutcome)
  | raised
  deriving DecidableEq, Repr

/-- Outcome of one `processEvent` call: the returned value (or the propagated
handler error), the committed ledger, and whether the handler ran. -/
structure ProcessResult where
  result : ProcessReturn
  ledger : Ledger
  handlerRan : Bool
  deriving DecidableEq, Repr

/-- Modelled from the spec: `processEvent` of the webhook idempotency ledger
(`logic/idempotency.js` as imported by `app.ts`) is absent from the sources —
only its tests and its caller are present — so this follows spec section 4.5
verbatim: inside one transaction, look the `(provider, event_id)` row up under
`FOR UPDATE`; if `PROCESSED`, return `DUPLICATE` without running the handler;
otherwise upsert the row as `PENDING`, run the handler, record `PROCESSED` on
success and return it, or record `FAILED` and propagate the error.
`handlerOk` is the outcome of the handler invocation. -/
def processEvent (led : Ledger) (p e : String) (handlerOk : Bool) : ProcessResult :=
  match ledgerLookup led p e with
  | some WebhookStatus.PROCESSED =>
    { result := ProcessReturn.value ProcessOutcome.DUPLICATE, ledger := led
      handlerRan := false }
  | _ =>
    let led1 := ledgerSet led p e WebhookStatus.PENDING
    if handlerOk then
      { result := ProcessReturn.value ProcessOutcome.PROCESSED
        ledger := ledgerSet led1 p e WebhookStatus.PROCESSED
        handlerRan := true }
    else
      { result := ProcessReturn.raised
        ledger := ledgerSet led1 p e WebhookStatus.FAILED
        handlerRan := true }

/-- Number of deliveries in a sequence whose handler invocation ran and
committed a `PROCESSED` outcome (each list entry is one delivery of the same
event, carrying that delivery's handler outcome). -/
def successRunCount (led : Ledger) (p e : String) : List Bool → Nat
  | [] => 0
  | o :: rest =>
    let r := processEvent led p e o
    (if r.handlerRan ∧ r.result = ProcessReturn.value ProcessOutcome.PROCESSED then 1 else 0)
      + successRunCount r.ledger p e rest

/-! ## Helper lemmas -/

/-- A first accept attempt on an unclaimed `PAID_SEARCHING` booking by a
candidate succeeds and claims the booking. -/
theorem acceptAttempt_wins (s : Store) (u : String) (now : Nat)
    (hst : s.booking.status = BookingState.PAID_SEARCHING)
    (hpid : s.booking.provider_id = none)
    (hc : u ∈ s.booking.candidate_list) :
    (acceptAttempt s u now).1 = OpResult.success
    ∧ (acceptAttempt s u now).2.booking.status = BookingState.ACCEPTED
    ∧ (acceptAttempt s u now).2.booking.provider_id = some u := by
  simp [acceptAttempt, updateBookingStatus, providerGuard, hst, hpid, hc,
    isValidTransition, allowedTransitions, OpResult.success]

/-- An accept attempt on a booking already in `ACCEPTED` is rejected by the
transition check and leaves the store untouched. -/
theorem acceptAttempt_claimed (s : Store) (u : String) (now : Nat)
    (hst : s.booking.status = BookingState.ACCEPTED) :
    acceptAttempt s u now =
      (OpResult.err (BErr.invalidTransition BookingState.ACCEPTED
        BookingState.ACCEPTED UserRole.Provider), s) := by
  simp [acceptAttempt, updateBookingStatus, providerGuard, hst, isValidTransition,
    allowedTransitions, OpResult.err]

/-- Every accept attempt on an `ACCEPTED` booking fails with the
invalid-transition error; the store never changes. -/
theorem runAccepts_claimed (s : Store) (uids : List String) (now : Nat)
    (hst : s.booking.status = BookingState.ACCEPTED) :
    runAccepts s uids now =
      (uids.map fun _ => OpResult.err (BErr.invalidTransition BookingState.ACCEPTED
        BookingState.ACCEPTED UserRole.Provider), s) := by
  induction uids with
  | nil => simp [runAccepts]
  | cons u rest ih => simp [runAccepts, acceptAttempt_claimed s u now hst, ih]

/-- Case analysis of `updateBookingStatus`: either it rejects and leaves the
store untouched, or it succeeds, in which case the transition was validated
against the table, the status becomes the target, and `provider_id` follows
the `COALESCE(provider_id, actor)` rule. -/
theorem updateBookingStatus_cases (s : Store) (next : BookingState) (role : UserRole)
    (actorId otp : Option String) (now : Nat) :
    (updateBookingStatus s next role actorId otp now).2 = s
    ∨ ((updateBookingStatus s next role actorId otp now).1.ok = true
       ∧ isValidTransition (some s.booking.status) next role = true
       ∧ (updateBookingStatus s next role actorId otp now).2.booking.status = next
       ∧ (updateBookingStatus s next role actorId otp now).2.booking.provider_id =
           (match s.booking.provider_id with
            | some p => some p
            | none => if role = UserRole.Provider then actorId else none)
       ∧ (updateBookingStatus s next role actorId otp now).2.intents = s.intents
       ∧ (updateBookingStatus s next role actorId otp now).2.outbox = s.outbox
       ∧ (updateBookingStatus s next role actorId otp now).2.captureCalls = s.captureCalls) := by
  by_cases h1 : isValidTransition (some s.booking.status) next role
  · by_cases h2 : next = BookingState.IN_PROGRESS ∧ s.booking.status = BookingState.ARRIVED
        ∧ (otp = none ∨ otp ≠ some s.booking.otp)
    · left
      simp only [updateBookingStatus, h1, h2]
      split <;> rfl
    · cases hpc : providerGuard role actorId s.booking.provider_id s.booking.candidate_list with
      | some e => left; simp [updateBookingStatus, h1, h2, hpc]
      | none =>
        right
        simp [updateBookingStatus, OpResult.success, h1, h2, hpc]
  · left; simp [updateBookingStatus, h1]

/-- Case analysis of `cancelBooking`: either it rejects untouched, or it
succeeds with a validated `→ CANCELLED` transition, releasing authorizations
and appending the fee intent exactly when the prior status was `EN_ROUTE` or
`ARRIVED`. -/
theorem cancelBooking_cases (s : Store) (role : UserRole) (actorId feeRand : String)
    (now : Nat) :
    ((cancelBooking s role actorId feeRand now).1.ok = false
     ∧ (cancelBooking s role actorId feeRand now).2 = s)
    ∨ ((cancelBooking s role actorId feeRand now).1.ok = true
       ∧ isValidTransition (some s.booking.status) BookingState.CANCELLED role = true
       ∧ (cancelBooking s role actorId feeRand now).2.booking.status = BookingState.CANCELLED
       ∧ (cancelBooking s role actorId feeRand now).2.booking.provider_id = s.booking.provider_id
       ∧ (cancelBooking s role actorId feeRand now).2.outbox = s.outbox
       ∧ (cancelBooking s role actorId feeRand now).2.captureCalls = s.captureCalls
       ∧ (cancelBooking s role actorId feeRand now).2.intents =
           (if s.booking.status = BookingState.EN_ROUTE
               ∨ s.booking.status = BookingState.ARRIVED then
              releaseAuthorization s.booking.id s.intents
                ++ [cancellationFeeIntent s.booking.id feeRand]
            else releaseAuthorization s.booking.id s.intents)) := by
  by_cases h1 : role = UserRole.User ∧ s.booking.customer_id ≠ actorId
  · left; simp [cancelBooking, OpResult.err, h1]
  · by_cases h2 : isValidTransition (some s.booking.status) BookingState.CANCELLED role
    · right
      by_cases h3 : s.booking.status = BookingState.EN_ROUTE
          ∨ s.booking.status = BookingState.ARRIVED
      · simp [cancelBooking, OpResult.success, h1, h2, h3]
      · simp [cancelBooking, OpResult.success, h1, h2, h3]
    · left; simp [cancelBooking, OpResult.err, h1, h2]

/-- Case analysis of `providerCancelBooking`: either it rejects untouched, or
the assigned provider re-dispatches: validated transition to
`PAID_SEARCHING`, `provider_id` cleared. -/
theorem providerCancelBooking_cases (s : Store) (providerId : String) (now : Nat) :
    (providerCancelBooking s providerId now).2 = s
    ∨ ((providerCancelBooking s providerId now).1.ok = true
       ∧ s.booking.provider_id = some providerId
       ∧ isValidTransition (some s.booking.status) BookingState.PAID_SEARCHING
           UserRole.Provider = true
       ∧ (providerCancelBooking s providerId now).2.booking.status =
           BookingState.PAID_SEARCHING
       ∧ (providerCancelBooking s providerId now).2.booking.provider_id = none
       ∧ (providerCancelBooking s providerId now).2.intents = s.intents
       ∧ (providerCancelBooking s providerId now).2.captureCalls = s.captureCalls) := by
  by_cases h1 : s.booking.provider_id = some providerId
  · by_cases h2 : isValidTransition (some s.booking.status) BookingState.PAID_SEARCHING
        UserRole.Provider
    · right; simp [providerCancelBooking, OpResult.success, h1, h2]
    · left; simp [providerCancelBooking, h1, h2]
  · left; simp [providerCancelBooking, h1]

/-- Case analysis of `flagIssue`: either it rejects untouched, or the owner
flags inside the grace window and the booking moves from `COMPLETE_PENDING`
to `NEEDS_REVIEW`. -/
theorem flagIssue_cases (s : Store) (customerId reason : String) (now : Nat) :
    (flagIssue s customerId reason now).2 = s
    ∨ ((flagIssue s customerId reason now).1.ok = true
       ∧ s.booking.status = BookingState.COMPLETE_PENDING
       ∧ (flagIssue s customerId reason now).2.booking.status = BookingState.NEEDS_REVIEW
       ∧ (flagIssue s customerId reason now).2.booking.provider_id = s.booking.provider_id
       ∧ (flagIssue s customerId reason now).2.intents = s.intents
       ∧ (flagIssue s customerId reason now).2.captureCalls = s.captureCalls) := by
  by_cases h1 : s.booking.customer_id ≠ customerId
  · left; simp [flagIssue, h1]
  · by_cases h2 : s.booking.status = BookingState.COMPLETE_PENDING
    · cases hd : s.booking.complete_pending_until with
      | none => left; simp [flagIssue, h1, h2, hd]
      | some deadline =>
        by_cases h3 : deadline < now
        · left; simp [flagIssue, h1, h2, hd, h3]
        · right; simp [flagIssue, OpResult.success, h1, h2, hd, h3]
    · left; simp [flagIssue, h1, h2]

/-- Case analysis of `completeBooking` at the booking level: either the
booking row is untouched (rejections, capture failure, rollback), or the
assigned provider completed an `IN_PROGRESS` booking and it advanced to
`COMPLETE_PENDING` keeping its provider. -/
theorem completeBooking_cases (s : Store) (pid : String) (env : StripeEnv) (now : Nat) :
    (completeBooking s pid env now).2.booking = s.booking
    ∨ ((completeBooking s pid env now).1.ok = true
       ∧ s.booking.status = BookingState.IN_PROGRESS
       ∧ s.booking.provider_id = some pid
       ∧ (completeBooking s pid env now).2.booking.status = BookingState.COMPLETE_PENDING
       ∧ (completeBooking s pid env now).2.booking.provider_id = some pid) := by
  by_cases h1 : s.booking.provider_id = some pid
  · by_cases h2 : s.booking.status = BookingState.IN_PROGRESS
    · cases hcap : capturePayment env s.booking.id s.intents with
      | error e => left; simp [completeBooking, h1, h2, hcap]
      | ok ints =>
        have hmain := updateBookingStatus_cases
          { s with captureCalls := s.captureCalls + 1, intents := ints }
          BookingState.COMPLETE_PENDING UserRole.Provider (some pid) none now
        by_cases hok2 : (updateBookingStatus
            { s with captureCalls := s.captureCalls + 1, intents := ints }
            BookingState.COMPLETE_PENDING UserRole.Provider (some pid) none now).1.ok
        · rcases hmain with heq | ⟨_, _, hst, hpidr, _⟩
          · left
            simp [completeBooking, h1, h2, hcap, hok2, heq]
          · right
            refine ⟨?_, h2, h1, ?_, ?_⟩
            · simp [completeBooking, h1, h2, hcap, hok2, OpResult.success]
            · simp [completeBooking, h1, h2, hcap, hok2, hst]
            · simp [completeBooking, h1, h2, hcap, hok2, hpidr, h1]
        · left
          simp [completeBooking, h1, h2, hcap, hok2]
    · left; simp [completeBooking, h1, h2]
  · left; simp [completeBooking, h1]

/-! ## Claim theorems -/

/-- C1: on a `PAID_SEARCHING` booking with no provider yet, for any
serialization of N accept attempts by distinct candidate providers, exactly
one attempt succeeds, the booking ends `ACCEPTED` with `provider_id` equal to
the winner's uid, and the other N−1 attempts all fail with the
invalid-transition (State) error — no second provider ever claims the
booking. -/
theorem accept_exactly_one_wins (s : Store) (u : String) (rest : List String) (now : Nat)
    (_hnd : (u :: rest).Nodup)
    (hst : s.booking.status = BookingState.PAID_SEARCHING)
    (hpid : s.booking.provider_id = none)
    (hcand : ∀ v ∈ u :: rest, v ∈ s.booking.candidate_list) :
    ((runAccepts s (u :: rest) now).1.countP (fun r => r.ok) = 1)
    ∧ (runAccepts s (u :: rest) now).2.booking.status = BookingState.ACCEPTED
    ∧ (runAccepts s (u :: rest) now).2.booking.provider_id = some u
    ∧ ((runAccepts s (u :: rest) now).1.head? = some OpResult.success)
    ∧ ∀ r ∈ ((runAccepts s (u :: rest) now).1.tail),
        r = OpResult.err (BErr.invalidTransition BookingState.ACCEPTED
          BookingState.ACCEPTED UserRole.Provider) := by
  obtain ⟨hok, hacc, hwin⟩ :=
    acceptAttempt_wins s u now hst hpid (hcand u (by simp))
  have hrest := runAccepts_claimed (acceptAttempt s u now).2 rest now hacc
  simp only [runAccepts, hrest, hok]
  refine ⟨?_, hacc, hwin, rfl, ?_⟩
  · simp [List.countP_cons, OpResult.success, List.countP_map, OpResult.err,
      Function.comp]
  · intro r hr
    simp only [List.tail_cons, List.mem_map] at hr
    obtain ⟨v, _, rfl⟩ := hr
    rfl

/-- C2: every status change committed by a booking-mutating operation
(`updateBookingStatus`, `cancelBooking`, `providerCancelBooking`,
`flagIssue`, `completeBooking`, and the sweeper) follows an edge of the
section-4.1 transition table for the acting role; no operation ever moves a
booking along an edge absent from the table. -/
theorem committed_transitions_in_table :
    (∀ (s : Store) (op : BookingOp) (now : Nat),
        (applyOp s op now).2.booking.status ≠ s.booking.status →
        spec41Allows s.booking.status ((applyOp s op now).2.booking.status)
          (actingRole op) = true)
    ∧ (∀ (now : Nat) (b : Booking),
        (sweepOne now b).status ≠ b.status →
        spec41Allows b.status ((sweepOne now b).status) UserRole.System = true) := by
  constructor
  · intro s op now hch
    cases op with
    | update next role actorId otp =>
      simp only [applyOp] at hch ⊢
      simp only [actingRole]
      rcases updateBookingStatus_cases s next role actorId otp now with
        heq | ⟨_, hvalid, hst, _⟩
      · rw [heq] at hch; exact absurd rfl hch
      · rw [hst, ← isValidTransition_eq_spec41]; exact hvalid
    | cancel role actorId feeRand =>
      simp only [applyOp] at hch ⊢
      simp only [actingRole]
      rcases cancelBooking_cases s role actorId feeRand now with
        ⟨_, heq⟩ | ⟨_, hvalid, hst, _⟩
      · rw [heq] at hch; exact absurd rfl hch
      · rw [hst, ← isValidTransition_eq_spec41]; exact hvalid
    | providerCancel pid =>
      simp only [applyOp] at hch ⊢
      simp only [actingRole]
      rcases providerCancelBooking_cases s pid now with
        heq | ⟨_, _, hvalid, hst, _⟩
      · rw [heq] at hch; exact absurd rfl hch
      · rw [hst, ← isValidTransition_eq_spec41]; exact hvalid
    | flag cid reason =>
      simp only [applyOp] at hch ⊢
      simp only [actingRole]
      rcases flagIssue_cases s cid reason now with
        heq | ⟨_, hfrom, hst, _⟩
      · rw [heq] at hch; exact absurd rfl hch
      · rw [hst, hfrom]; rfl
    | complete pid env =>
      simp only [applyOp] at hch ⊢
      simp only [actingRole]
      rcases completeBooking_cases s pid env now with
        heq | ⟨_, hfrom, _, hst, _⟩
      · rw [heq] at hch; exact absurd rfl hch
      · rw [hst, hfrom]; rfl
  · intro now b hch
    by_cases hc : b.status = BookingState.PENDING_PAYMENT ∧ b.created_at + 86400 < now
    · simp only [sweepOne, if_pos hc]
      rw [hc.1]; rfl
    · simp only [sweepOne, if_neg hc] at hch
      exact absurd rfl hch

/-- C6: once a booking's `provider_id` is non-null, every operation either
preserves it exactly or is a `providerCancelBooking` that nulls it while
re-dispatching the booking to `PAID_SEARCHING`; the sweeper never touches
`provider_id`.  In particular no operation ever replaces an assigned
provider by a different uid. -/
theorem provider_id_immutable :
    (∀ (s : Store) (op : BookingOp) (now : Nat) (p : String),
        s.booking.provider_id = some p →
        (applyOp s op now).2.booking.provider_id = some p
        ∨ ((∃ pid, op = BookingOp.providerCancel pid)
           ∧ (applyOp s op now).2.booking.provider_id = none
           ∧ (applyOp s op now).2.booking.status = BookingState.PAID_SEARCHING))
    ∧ (∀ (now : Nat) (b : Booking), (sweepOne now b).provider_id = b.provider_id) := by
  constructor
  · intro s op now p hp
    cases op with
    | update next role actorId otp =>
      left
      simp only [applyOp]
      rcases updateBookingStatus_cases s next role actorId otp now with
        heq | ⟨_, _, _, hpidr, _⟩
      · rw [heq]; exact hp
      · rw [hpidr, hp]
    | cancel role actorId feeRand =>
      left
      simp only [applyOp]
      rcases cancelBooking_cases s role actorId feeRand now with
        ⟨_, heq⟩ | ⟨_, _, _, hpidr, _⟩
      · rw [heq]; exact hp
      · rw [hpidr]; exact hp
    | providerCancel pid =>
      simp only [applyOp]
      rcases providerCancelBooking_cases s pid now with
        heq | ⟨_, _, _, hst, hnone, _⟩
      · left; rw [heq]; exact hp
      · right; exact ⟨⟨pid, rfl⟩, hnone, hst⟩
    | flag cid reason =>
      left
      simp only [applyOp]
      rcases flagIssue_cases s cid reason now with
        heq | ⟨_, _, _, hpidr, _⟩
      · rw [heq]; exact hp
      · rw [hpidr]; exact hp
    | complete pid env =>
      left
      simp only [applyOp]
      rcases completeBooking_cases s pid env now with
        heq | ⟨_, _, hassigned, _, hpidr⟩
      · rw [heq]; exact hp
      · rw [hpidr, ← hp, hassigned]
  · intro now b
    by_cases hc : b.status = BookingState.PENDING_PAYMENT ∧ b.created_at + 86400 < now
    · simp [sweepOne, hc]
    · simp [sweepOne, hc]

/-- Sample booking used by the concrete witnesses. -/
def exBooking : Booking :=
  { id := "b1", status := BookingState.PAID_SEARCHING, customer_id := "u1"
    provider_id := none, service_id := "s1", slot_id := "sl1"
    candidate_list := ["p1", "p2", "p3"], otp := "1234", expires_at := 900
    complete_pending_until := none, created_at := 0, updated_at := 0 }

/-- Sample store used by the concrete witnesses. -/
def exStore : Store :=
  { booking := exBooking, intents := [], events := [], outbox := [], captureCalls := 0 }

/-- C1 witness: three candidates race for the sample booking; the first
serialized attempt wins, the other two get the State error. -/
theorem accept_exactly_one_wins_witness :
    ((runAccepts exStore ["p1", "p2", "p3"] 100).1.countP (fun r => r.ok) = 1)
    ∧ (runAccepts exStore ["p1", "p2", "p3"] 100).2.booking.status = BookingState.ACCEPTED
    ∧ (runAccepts exStore ["p1", "p2", "p3"] 100).2.booking.provider_id = some "p1"
    ∧ ((runAccepts exStore ["p1", "p2", "p3"] 100).1.head? = some OpResult.success)
    ∧ ∀ r ∈ ((runAccepts exStore ["p1", "p2", "p3"] 100).1.tail),
        r = OpResult.err (BErr.invalidTransition BookingState.ACCEPTED
          BookingState.ACCEPTED UserRole.Provider) :=
  accept_exactly_one_wins exStore "p1" ["p2", "p3"] 100 (by decide) rfl rfl (by decide)

/-- C2 witness: a provider accepting the sample `PAID_SEARCHING` booking and
the sweeper expiring a stale `PENDING_PAYMENT` booking both follow the
section-4.1 table. -/
theorem committed_transitions_in_table_witness :
    spec41Allows exStore.booking.status
      ((applyOp exStore
          (BookingOp.update BookingState.ACCEPTED UserRole.Provider (some "p1") none)
          5).2.booking.status)
      (actingRole (BookingOp.update BookingState.ACCEPTED UserRole.Provider
        (some "p1") none)) = true
    ∧ spec41Allows ({ exBooking with status := BookingState.PENDING_PAYMENT }).status
        ((sweepOne 100000 { exBooking with status := BookingState.PENDING_PAYMENT }).status)
        UserRole.System = true :=
  ⟨committed_transitions_in_table.1 exStore
      (BookingOp.update BookingState.ACCEPTED UserRole.Provider (some "p1") none) 5
      (by decide),
   committed_transitions_in_table.2 100000
      { exBooking with status := BookingState.PENDING_PAYMENT } (by decide)⟩

/-- C6 witness: on a claimed sample booking, a travel transition keeps
`provider_id`, and the sweeper leaves it untouched. -/
theorem provider_id_immutable_witness :
    ((applyOp { exStore with booking := { exBooking with
          status := BookingState.ACCEPTED, provider_id := some "p1" } }
        (BookingOp.update BookingState.EN_ROUTE UserRole.Provider (some "p1") none)
        7).2.booking.provider_id = some "p1"
      ∨ ((∃ pid, (BookingOp.update BookingState.EN_ROUTE UserRole.Provider
            (some "p1") none) = BookingOp.providerCancel pid)
         ∧ (applyOp { exStore with booking := { exBooking with
              status := BookingState.ACCEPTED, provider_id := some "p1" } }
            (BookingOp.update BookingState.EN_ROUTE UserRole.Provider (some "p1") none)
            7).2.booking.provider_id = none
         ∧ (applyOp { exStore with booking := { exBooking with
              status := BookingState.ACCEPTED, provider_id := some "p1" } }
            (BookingOp.update BookingState.EN_ROUTE UserRole.Provider (some "p1") none)
            7).2.booking.status = BookingState.PAID_SEARCHING))
    ∧ (sweepOne 7 exBooking).provider_id = exBooking.provider_id :=
  ⟨provider_id_immutable.1
      { exStore with booking := { exBooking with
          status := BookingState.ACCEPTED, provider_id := some "p1" } }
      (BookingOp.update BookingState.EN_ROUTE UserRole.Provider (some "p1") none)
      7 "p1" rfl,
   provider_id_immutable.2 7 exBooking⟩

/-- Writing a `(provider, event_id)` status is visible to the next lookup. -/
theorem ledgerLookup_ledgerSet (led : Ledger) (p e : String) (st : WebhookStatus) :
    ledgerLookup (ledgerSet led p e st) p e = some st := by
  induction led with
  | nil => simp [ledgerSet, ledgerLookup]
  | cons w rest ih =>
    by_cases h : w.provider = p ∧ w.event_id = e
    · simp [ledgerSet, ledgerLookup, h]
    · simp [ledgerSet, ledgerLookup, h, ih]

/-- A delivery of an already-`PROCESSED` event returns `DUPLICATE`, runs no
handler, and leaves the ledger unchanged. -/
theorem processEvent_duplicate (led : Ledger) (p e : String) (handlerOk : Bool)
    (h : ledgerLookup led p e = some WebhookStatus.PROCESSED) :
    processEvent led p e handlerOk =
      { result := ProcessReturn.value ProcessOutcome.DUPLICATE, ledger := led
        handlerRan := false } := by
  simp [processEvent, h]

/-- A delivery of a not-yet-`PROCESSED` event runs the handler; on success it
commits `PROCESSED` and returns it, on failure it commits `FAILED` and
propagates the error. -/
theorem processEvent_fresh (led : Ledger) (p e : String) (handlerOk : Bool)
    (h : ledgerLookup led p e ≠ some WebhookStatus.PROCESSED) :
    (processEvent led p e handlerOk).handlerRan = true
    ∧ (processEvent led p e handlerOk).result =
        (if handlerOk then ProcessReturn.value ProcessOutcome.PROCESSED
         else ProcessReturn.raised)
    ∧ ledgerLookup (processEvent led p e handlerOk).ledger p e =
        some (if handlerOk then WebhookStatus.PROCESSED else WebhookStatus.FAILED) := by
  cases hl : ledgerLookup led p e with
  | none =>
    cases handlerOk <;> simp [processEvent, hl, ledgerLookup_ledgerSet]
  | some st =>
    cases st with
    | PROCESSED => exact absurd hl h
    | PENDING => cases handlerOk <;> simp [processEvent, hl, ledgerLookup_ledgerSet]
    | FAILED => cases handlerOk <;> simp [processEvent, hl, ledgerLookup_ledgerSet]

/-- Once an event is `PROCESSED`, no later delivery of it ever runs the
handler with a `PROCESSED` outcome again. -/
theorem successRunCount_processed (p e : String) (outcomes : List Bool) :
    ∀ (led : Ledger), ledgerLookup led p e = some WebhookStatus.PROCESSED →
      successRunCount led p e outcomes = 0 := by
  induction outcomes with
  | nil => intro led _; rfl
  | cons o rest ih =>
    intro led h
    simp [successRunCount, processEvent_duplicate led p e o h, ih led h]

/-- Over any delivery sequence, a not-yet-`PROCESSED` event's handler commits
a `PROCESSED` outcome at most once. -/
theorem successRunCount_le_one (p e : String) (outcomes : List Bool) :
    ∀ (led : Ledger), ledgerLookup led p e ≠ some WebhookStatus.PROCESSED →
      successRunCount led p e outcomes ≤ 1 := by
  induction outcomes with
  | nil => intro led _; simp [successRunCount]
  | cons o rest ih =>
    intro led h
    obtain ⟨hran, hres, hlook⟩ := processEvent_fresh led p e o h
    cases o with
    | true =>
      simp only [if_pos rfl] at hres hlook
      simp [successRunCount, hran, hres,
        successRunCount_processed p e rest (processEvent led p e true).ledger hlook]
    | false =>
      simp at hres hlook
      have : ledgerLookup (processEvent led p e false).ledger p e
          ≠ some WebhookStatus.PROCESSED := by rw [hlook]; simp
      simp [successRunCount, hres]
      exact ih (processEvent led p e false).ledger this

/-- C3: for each `(provider, event_id)` pair the webhook handler commits a
`PROCESSED` outcome at most once: a delivery of an already-`PROCESSED` event
returns `DUPLICATE` without running the handler; a handler failure records
`FAILED` and propagates the error, and a later delivery of the same event
runs the handler again. -/
theorem processEvent_exactly_once :
    (∀ (led : Ledger) (p e : String) (handlerOk : Bool),
        ledgerLookup led p e = some WebhookStatus.PROCESSED →
        processEvent led p e handlerOk =
          { result := ProcessReturn.value ProcessOutcome.DUPLICATE, ledger := led
            handlerRan := false })
    ∧ (∀ (led : Ledger) (p e : String),
        ledgerLookup led p e ≠ some WebhookStatus.PROCESSED →
        (processEvent led p e true).result = ProcessReturn.value ProcessOutcome.PROCESSED
        ∧ (processEvent led p e true).handlerRan = true
        ∧ ledgerLookup (processEvent led p e true).ledger p e
            = some WebhookStatus.PROCESSED)
    ∧ (∀ (led : Ledger) (p e : String),
        ledgerLookup led p e ≠ some WebhookStatus.PROCESSED →
        (processEvent led p e false).result = ProcessReturn.raised
        ∧ (processEvent led p e false).handlerRan = true
        ∧ ledgerLookup (processEvent led p e false).ledger p e
            = some WebhookStatus.FAILED
        ∧ ∀ handlerOk2,
            (processEvent (processEvent led p e false).ledger p e handlerOk2).handlerRan
              = true)
    ∧ (∀ (led : Ledger) (p e : String) (outcomes : List Bool),
        ledgerLookup led p e = none →
        successRunCount led p e outcomes ≤ 1) := by
  refine ⟨processEvent_duplicate, ?_, ?_, ?_⟩
  · intro led p e h
    obtain ⟨hran, hres, hlook⟩ := processEvent_fresh led p e true h
    simp only [if_pos rfl] at hres hlook
    exact ⟨hres, hran, hlook⟩
  · intro led p e h
    obtain ⟨hran, hres, hlook⟩ := processEvent_fresh led p e false h
    simp at hres hlook
    refine ⟨hres, hran, hlook, ?_⟩
    intro handlerOk2
    have hne : ledgerLookup (processEvent led p e false).ledger p e
        ≠ some WebhookStatus.PROCESSED := by rw [hlook]; simp
    exact (processEvent_fresh (processEvent led p e false).ledger p e handlerOk2 hne).1
  · intro led p e outcomes h
    exact successRunCount_le_one p e outcomes led (by rw [h]; simp)

/-- C3 witness: on the empty ledger — a successful first delivery of
`evt_1`, a duplicate redelivery, a failing delivery of `evt_2` that stays
retriable, and at-most-one committed success over a four-delivery burst. -/
theorem processEvent_exactly_once_witness :
    (processEvent ((processEvent [] "stripe" "evt_1" true).ledger) "stripe" "evt_1" false =
      { result := ProcessReturn.value ProcessOutcome.DUPLICATE
        ledger := (processEvent [] "stripe" "evt_1" true).ledger
        handlerRan := false })
    ∧ ((processEvent [] "stripe" "evt_1" true).result
          = ProcessReturn.value ProcessOutcome.PROCESSED
       ∧ (processEvent [] "stripe" "evt_1" true).handlerRan = true
       ∧ ledgerLookup (processEvent [] "stripe" "evt_1" true).ledger "stripe" "evt_1"
          = some WebhookStatus.PROCESSED)
    ∧ ((processEvent [] "stripe" "evt_2" false).result = ProcessReturn.raised
       ∧ (processEvent [] "stripe" "evt_2" false).handlerRan = true
       ∧ ledgerLookup (processEvent [] "stripe" "evt_2" false).ledger "stripe" "evt_2"
          = some WebhookStatus.FAILED
       ∧ ∀ handlerOk2,
           (processEvent (processEvent [] "stripe" "evt_2" false).ledger
             "stripe" "evt_2" handlerOk2).handlerRan = true)
    ∧ successRunCount [] "stripe" "evt_1" [true, true, false, true] ≤ 1 :=
  ⟨processEvent_exactly_once.1 (processEvent [] "stripe" "evt_1" true).ledger
      "stripe" "evt_1" false (by decide),
   processEvent_exactly_once.2.1 [] "stripe" "evt_1" (by decide),
   processEvent_exactly_once.2.2.1 [] "stripe" "evt_2" (by decide),
   processEvent_exactly_once.2.2.2 [] "stripe" "evt_1" [true, true, false, true] rfl⟩

/-- C4: when the assigned provider completes an `IN_PROGRESS` booking, a
failing capture yields `CAPTURE_FAILED` with the booking row untouched (so
status stays `IN_PROGRESS` and completion can be retried) while the
`capture_failed` audit event and the `CAPTURE_FAILED` outbox notification are
committed; a successful capture advances the booking to `COMPLETE_PENDING`. -/
theorem completeBooking_capture (s : Store) (pid : String) (env : StripeEnv) (now : Nat)
    (hpid : s.booking.provider_id = some pid)
    (hst : s.booking.status = BookingState.IN_PROGRESS) :
    (∀ err, capturePayment env s.booking.id s.intents = Except.error err →
        (completeBooking s pid env now).1.code = some ErrCode.CAPTURE_FAILED
        ∧ (completeBooking s pid env now).1.ok = false
        ∧ (completeBooking s pid env now).2.booking = s.booking
        ∧ (completeBooking s pid env now).2.intents = s.intents
        ∧ (completeBooking s pid env now).2.events = s.events
            ++ [{ booking_id := s.booking.id, type := "capture_failed"
                  actor_role := some UserRole.Provider, actor_id := some pid }]
        ∧ (completeBooking s pid env now).2.outbox = s.outbox
            ++ [{ booking_id := s.booking.id, recipient_uid := "SYSTEM_ADMIN"
                  type := "CAPTURE_FAILED" }])
    ∧ (∀ ints, capturePayment env s.booking.id s.intents = Except.ok ints →
        (completeBooking s pid env now).1.ok = true
        ∧ (completeBooking s pid env now).2.booking.status = BookingState.COMPLETE_PENDING
        ∧ (completeBooking s pid env now).2.booking.provider_id = some pid
        ∧ (completeBooking s pid env now).2.intents = ints) := by
  constructor
  · intro err hcap
    simp [completeBooking, hpid, hst, hcap]
  · intro ints hcap
    simp [completeBooking, hpid, hst, hcap, updateBookingStatus, providerGuard,
      isValidTransition, allowedTransitions, OpResult.success]

/-- Sample authorized main intent used by the concrete witnesses. -/
def exIntent : PaymentIntent :=
  { booking_id := "b1", amount_cents := 45000, currency := "ZAR"
    status := IntentStatus.AUTHORIZED, provider := "STRIPE"
    provider_ref := "pi_mock_abc" }

/-- Sample claimed `IN_PROGRESS` store with an authorized intent. -/
def exInProgress : Store :=
  { exStore with
    booking := { exBooking with
      status := BookingState.IN_PROGRESS, provider_id := some "p1" }
    intents := [exIntent] }

/-- Dev payment environment: no Stripe key configured. -/
def envDev : StripeEnv := { configured := false, captureOk := true }

/-- C4 witness: with no authorized intent the sample completion fails with
`CAPTURE_FAILED` and commits the audit rows; with the authorized intent it
advances to `COMPLETE_PENDING` capturing the intent. -/
theorem completeBooking_capture_witness :
    ((completeBooking { exInProgress with intents := [] } "p1" envDev 50).1.code
        = some ErrCode.CAPTURE_FAILED
      ∧ (completeBooking { exInProgress with intents := [] } "p1" envDev 50).1.ok = false
      ∧ (completeBooking { exInProgress with intents := [] } "p1" envDev 50).2.booking
        = { exInProgress with intents := [] }.booking
      ∧ (completeBooking { exInProgress with intents := [] } "p1" envDev 50).2.intents
        = { exInProgress with intents := [] }.intents
      ∧ (completeBooking { exInProgress with intents := [] } "p1" envDev 50).2.events
        = { exInProgress with intents := [] }.events
          ++ [{ booking_id := { exInProgress with intents := [] }.booking.id
                type := "capture_failed"
                actor_role := some UserRole.Provider, actor_id := some "p1" }]
      ∧ (completeBooking { exInProgress with intents := [] } "p1" envDev 50).2.outbox
        = { exInProgress with intents := [] }.outbox
          ++ [{ booking_id := { exInProgress with intents := [] }.booking.id
                recipient_uid := "SYSTEM_ADMIN", type := "CAPTURE_FAILED" }])
    ∧ ((completeBooking exInProgress "p1" envDev 50).1.ok = true
       ∧ (completeBooking exInProgress "p1" envDev 50).2.booking.status
          = BookingState.COMPLETE_PENDING
       ∧ (completeBooking exInProgress "p1" envDev 50).2.booking.provider_id = some "p1"
       ∧ (completeBooking exInProgress "p1" envDev 50).2.intents
          = [{ exIntent with status := IntentStatus.SUCCEEDED }]) :=
  ⟨(completeBooking_capture { exInProgress with intents := [] } "p1" envDev 50
      rfl rfl).1 BErr.noAuthorizedIntent rfl,
   (completeBooking_capture exInProgress "p1" envDev 50 rfl rfl).2
      [{ exIntent with status := IntentStatus.SUCCEEDED }] rfl⟩

/-- Sample claimed `EN_ROUTE` store with an authorized intent. -/
def exEnRoute : Store :=
  { exStore with
    booking := { exBooking with status := BookingState.EN_ROUTE, provider_id := some "p1" }
    intents := [exIntent] }

/-- C5 counterexample: a Provider cancelling an `EN_ROUTE` booking succeeds
AND writes a cancellation-fee intent (`SUCCEEDED`, 1000 cents, `pi_fee_`
reference) — the fee check in `cancelBooking` looks only at the status, never
at the acting role, contradicting the claim that provider cancellations never
charge the fee. -/
theorem provider_cancel_charges_fee_counterexample :
    (cancelBooking exEnRoute UserRole.Provider "p1" "r1" 60).1.ok = true
    ∧ (cancelBooking exEnRoute UserRole.Provider "p1" "r1" 60).2.intents =
        [{ exIntent with status := IntentStatus.CANCELLED },
         { booking_id := "b1", amount_cents := 1000, currency := "ZAR"
           status := IntentStatus.SUCCEEDED, provider := "STRIPE"
           provider_ref := "pi_fee_" ++ "r1" }] := by
  constructor
  · rfl
  · rfl

/-- C5 (amended): for every successful cancellation, the booking's
authorizations are released and a cancellation-fee intent
(`cancellationFeeIntent`: status `SUCCEEDED`, 1000 cents, reference
`pi_fee_` + suffix) is appended if and only if the status before cancellation
was `EN_ROUTE` or `ARRIVED` — for any acting role; the fee is not restricted
to customer cancellations. -/
theorem cancelBooking_fee_amended (s : Store) (role : UserRole)
    (actorId feeRand : String) (now : Nat)
    (hok : (cancelBooking s role actorId feeRand now).1.ok = true) :
    (cancelBooking s role actorId feeRand now).2.intents =
      releaseAuthorization s.booking.id s.intents
        ++ (if s.booking.status = BookingState.EN_ROUTE
              ∨ s.booking.status = BookingState.ARRIVED
            then [cancellationFeeIntent s.booking.id feeRand] else []) := by
  rcases cancelBooking_cases s role actorId feeRand now with
    ⟨hf, _⟩ | ⟨_, _, _, _, _, _, hint⟩
  · simp [hok] at hf
  · rw [hint]
    split <;> simp

/-- C5 amended witness: the provider cancellation of the sample `EN_ROUTE`
booking releases the authorization and appends the fee intent. -/
theorem cancelBooking_fee_amended_witness :
    (cancelBooking exEnRoute UserRole.Provider "p1" "r1" 60).2.intents =
      releaseAuthorization exEnRoute.booking.id exEnRoute.intents
        ++ (if exEnRoute.booking.status = BookingState.EN_ROUTE
              ∨ exEnRoute.booking.status = BookingState.ARRIVED
            then [cancellationFeeIntent exEnRoute.booking.id "r1"] else []) :=
  cancelBooking_fee_amended exEnRoute UserRole.Provider "p1" "r1" 60 (by decide)

/-- Counting effect of the capture UPDATE: every `AUTHORIZED` intent of the
booking becomes `SUCCEEDED`, the others keep their status. -/
theorem countP_capture_map (bid : String) (l : List PaymentIntent) :
    (l.map fun j =>
        if j.booking_id = bid ∧ j.status = IntentStatus.AUTHORIZED then
          { j with status := IntentStatus.SUCCEEDED }
        else j).countP (fun i => i.status == IntentStatus.SUCCEEDED)
      = l.countP (fun i => i.status == IntentStatus.SUCCEEDED)
        + l.countP (fun i => i.booking_id == bid && i.status == IntentStatus.AUTHORIZED) := by
  induction l with
  | nil => rfl
  | cons j rest ih =>
    by_cases hcond : j.booking_id = bid ∧ j.status = IntentStatus.AUTHORIZED
    · simp only [List.map_cons, List.countP_cons, if_pos hcond]
      have h1 : j.status ≠ IntentStatus.SUCCEEDED := by rw [hcond.2]; simp
      simp [ih, hcond, h1]
      omega
    · simp only [List.map_cons, List.countP_cons, if_neg hcond]
      have h2 : (j.booking_id == bid && j.status == IntentStatus.AUTHORIZED) = false := by
        by_cases hb : j.booking_id = bid
        · by_cases ha : j.status = IntentStatus.AUTHORIZED
          · exact absurd ⟨hb, ha⟩ hcond
          · simp [ha]
        · simp [hb]
      simp [ih, h2]
      omega

/-- A successful `capturePayment` turns exactly the booking's `AUTHORIZED`
intents into `SUCCEEDED` ones. -/
theorem capturePayment_ok_counts (env : StripeEnv) (bid : String)
    (intents ints : List PaymentIntent)
    (h : capturePayment env bid intents = Except.ok ints) :
    ints.countP (fun i => i.status == IntentStatus.SUCCEEDED)
      = intents.countP (fun i => i.status == IntentStatus.SUCCEEDED)
        + intents.countP (fun i => i.booking_id == bid
            && i.status == IntentStatus.AUTHORIZED) := by
  unfold capturePayment at h
  cases hf : intents.find? (fun i => i.booking_id == bid
      && i.status == IntentStatus.AUTHORIZED) with
  | none => rw [hf] at h; cases h
  | some i =>
    rw [hf] at h
    have h2 : (if env.configured ∧ i.provider_ref.startsWith "pi_"
          ∧ ¬ i.provider_ref.startsWith "pi_mock_" ∧ ¬ env.captureOk then
        Except.error BErr.stripeCaptureFailed
      else
        Except.ok (intents.map fun j =>
          if j.booking_id = bid ∧ j.status = IntentStatus.AUTHORIZED then
            { j with status := IntentStatus.SUCCEEDED }
          else j)) = Except.ok ints := h
    by_cases hcond : env.configured ∧ i.provider_ref.startsWith "pi_"
        ∧ ¬ i.provider_ref.startsWith "pi_mock_" ∧ ¬ env.captureOk
    · rw [if_pos hcond] at h2; cases h2
    · rw [if_neg hcond] at h2
      rw [← Except.ok.inj h2]
      exact countP_capture_map bid intents

/-- C7: `confirm-complete` is idempotent.  On a `CLOSED` booking the owner's
call returns success without touching the store at all (in particular no
capture attempt, `captureCalls` included in the store equality).  After a
`provider-complete`, running `confirm-complete` twice gives the very same
final state as running it once — `CLOSED` with exactly one `SUCCEEDED`
intent — the second call returning success immediately. -/
theorem confirmComplete_idempotent :
    (∀ (s : Store) (uid : String) (env : StripeEnv) (now : Nat),
        s.booking.customer_id = uid →
        s.booking.status = BookingState.CLOSED →
        confirmCompleteRoute s uid env now = (HttpResp.ok BookingState.CLOSED true, s))
    ∧ (∀ (s : Store) (pvid uid : String) (env : StripeEnv) (now1 now2 now3 : Nat)
          (ints : List PaymentIntent),
        s.booking.provider_id = some pvid →
        s.booking.status = BookingState.IN_PROGRESS →
        s.booking.customer_id = uid →
        capturePayment env s.booking.id s.intents = Except.ok ints →
        s.intents.countP (fun i => i.booking_id == s.booking.id
            && i.status == IntentStatus.AUTHORIZED) = 1 →
        s.intents.countP (fun i => i.status == IntentStatus.SUCCEEDED) = 0 →
        (providerCompleteRoute s pvid now1).1
            = HttpResp.ok BookingState.COMPLETE_PENDING false
        ∧ (confirmCompleteRoute (providerCompleteRoute s pvid now1).2 uid env now2).1
            = HttpResp.ok BookingState.CLOSED false
        ∧ (confirmCompleteRoute (providerCompleteRoute s pvid now1).2
            uid env now2).2.booking.status = BookingState.CLOSED
        ∧ (confirmCompleteRoute (providerCompleteRoute s pvid now1).2
            uid env now2).2.intents.countP
              (fun i => i.status == IntentStatus.SUCCEEDED) = 1
        ∧ confirmCompleteRoute
            (confirmCompleteRoute (providerCompleteRoute s pvid now1).2 uid env now2).2
            uid env now3
          = (HttpResp.ok BookingState.CLOSED true,
             (confirmCompleteRoute (providerCompleteRoute s pvid now1).2
               uid env now2).2)) := by
  constructor
  · intro s uid env now hc hst
    simp [confirmCompleteRoute, hc, hst]
  · intro s pvid uid env now1 now2 now3 ints hp hst hc hcap hauth hsucc
    have hcount := capturePayment_ok_counts env s.booking.id s.intents ints hcap
    rw [hsucc, hauth] at hcount
    simp [providerCompleteRoute, confirmCompleteRoute, updateBookingStatus,
      providerGuard, hp, hst, hc, hcap, hcount, isValidTransition,
      allowedTransitions, OpResult.success]

/-- C7 witness: on the sample data — a `CLOSED` booking answers
`already_closed` unchanged, and after provider-complete the double
confirm-complete ends exactly like the single one: `CLOSED`, one `SUCCEEDED`
intent. -/
theorem confirmComplete_idempotent_witness :
    (confirmCompleteRoute { exStore with
        booking := { exBooking with status := BookingState.CLOSED } } "u1" envDev 99
      = (HttpResp.ok BookingState.CLOSED true,
         { exStore with booking := { exBooking with status := BookingState.CLOSED } }))
    ∧ ((providerCompleteRoute exInProgress "p1" 10).1
          = HttpResp.ok BookingState.COMPLETE_PENDING false
       ∧ (confirmCompleteRoute (providerCompleteRoute exInProgress "p1" 10).2
            "u1" envDev 20).1 = HttpResp.ok BookingState.CLOSED false
       ∧ (confirmCompleteRoute (providerCompleteRoute exInProgress "p1" 10).2
            "u1" envDev 20).2.booking.status = BookingState.CLOSED
       ∧ (confirmCompleteRoute (providerCompleteRoute exInProgress "p1" 10).2
            "u1" envDev 20).2.intents.countP
              (fun i => i.status == IntentStatus.SUCCEEDED) = 1
       ∧ confirmCompleteRoute
            (confirmCompleteRoute (providerCompleteRoute exInProgress "p1" 10).2
              "u1" envDev 20).2 "u1" envDev 30
          = (HttpResp.ok BookingState.CLOSED true,
             (confirmCompleteRoute (providerCompleteRoute exInProgress "p1" 10).2
               "u1" envDev 20).2)) :=
  ⟨confirmComplete_idempotent.1
      { exStore with booking := { exBooking with status := BookingState.CLOSED } }
      "u1" envDev 99 rfl rfl,
   confirmComplete_idempotent.2 exInProgress "p1" "u1" envDev 10 20 30
      [{ exIntent with status := IntentStatus.SUCCEEDED }]
      rfl rfl rfl rfl (by decide) (by decide)⟩

/-- `GET /bookings/:id` in closed form: authorized iff customer, assigned
provider, candidate or admin; OTP kept iff customer or admin. -/
theorem getBookingRoute_eq (b : Booking) (uid : String) (role : AuthRole) :
    getBookingRoute (some b) uid role =
      (if b.customer_id = uid ∨ b.provider_id = some uid ∨ uid ∈ b.candidate_list
          ∨ role = AuthRole.admin then
        GetBookingResp.ok
          (bookingView b (decide (b.customer_id = uid ∨ role = AuthRole.admin)))
      else GetBookingResp.forbidden) := by
  by_cases h : b.customer_id = uid ∨ b.provider_id = some uid ∨ uid ∈ b.candidate_list
      ∨ role = AuthRole.admin
  · rw [if_pos h]
    simp only [getBookingRoute]
    rw [if_neg (by tauto)]
  · rw [if_neg h]
    simp only [getBookingRoute]
    rw [if_pos (by tauto)]

/-- C8: `GET /bookings/:id` never exposes the OTP to anyone but the owning
customer and admins: any successful response carries the OTP iff the
requester is the owning customer or an admin (so the assigned provider and
every candidate get it stripped), and the owning customer and admins always
receive the booking with the OTP. -/
theorem otp_only_for_owner_and_admin (b : Booking) (uid : String) (role : AuthRole) :
    (∀ v, getBookingRoute (some b) uid role = GetBookingResp.ok v →
        (v.otp = some b.otp ↔ (b.customer_id = uid ∨ role = AuthRole.admin))
        ∧ (¬ (b.customer_id = uid ∨ role = AuthRole.admin) → v.otp = none))
    ∧ ((b.customer_id = uid ∨ role = AuthRole.admin) →
        getBookingRoute (some b) uid role = GetBookingResp.ok (bookingView b true)
        ∧ (bookingView b true).otp = some b.otp) := by
  constructor
  · intro v hv
    rw [getBookingRoute_eq] at hv
    by_cases hca : b.customer_id = uid ∨ role = AuthRole.admin
    · rw [if_pos (by tauto), decide_eq_true hca] at hv
      rw [← GetBookingResp.ok.inj hv]
      refine ⟨by simp [bookingView, hca], ?_⟩
      intro hn
      exact absurd hca hn
    · by_cases hacc : b.customer_id = uid ∨ b.provider_id = some uid
          ∨ uid ∈ b.candidate_list ∨ role = AuthRole.admin
      · rw [if_pos hacc, decide_eq_false hca] at hv
        rw [← GetBookingResp.ok.inj hv]
        refine ⟨?_, fun _ => by simp [bookingView]⟩
        simp [bookingView, hca]
      · rw [if_neg hacc] at hv
        cases hv
  · intro hca
    rw [getBookingRoute_eq, if_pos (by tauto), decide_eq_true hca]
    exact ⟨rfl, by simp [bookingView]⟩

/-- C10 (implicit): a provider whose uid is in the candidate list but who is
not the assigned provider (nor the customer) gets a 200 from
`GET /bookings/:id` — the booking with the OTP stripped — rather than 403;
candidates can read a booking before accepting it. -/
theorem candidate_can_read_booking (b : Booking) (uid : String)
    (hcand : uid ∈ b.candidate_list)
    (_hnotassigned : b.provider_id ≠ some uid)
    (hnotcust : b.customer_id ≠ uid) :
    getBookingRoute (some b) uid AuthRole.provider
      = GetBookingResp.ok (bookingView b false)
    ∧ (bookingView b false).otp = none
    ∧ (bookingView b false).status = b.status := by
  refine ⟨?_, rfl, rfl⟩
  simp [getBookingRoute, hcand, hnotcust]

/-- C8 witness: on the sample booking, candidate `p2` in the provider role
gets the booking with OTP stripped, and the owning customer `u1` receives the
OTP. -/
theorem otp_only_for_owner_and_admin_witness :
    ((bookingView exBooking false).otp = some exBooking.otp
        ↔ (exBooking.customer_id = "p2" ∨ AuthRole.provider = AuthRole.admin))
    ∧ (¬ (exBooking.customer_id = "p2" ∨ AuthRole.provider = AuthRole.admin) →
        (bookingView exBooking false).otp = none)
    ∧ (getBookingRoute (some exBooking) "u1" AuthRole.user
        = GetBookingResp.ok (bookingView exBooking true)
       ∧ (bookingView exBooking true).otp = some exBooking.otp) :=
  ⟨((otp_only_for_owner_and_admin exBooking "p2" AuthRole.provider).1
      (bookingView exBooking false) (by decide)).1,
   ((otp_only_for_owner_and_admin exBooking "p2" AuthRole.provider).1
      (bookingView exBooking false) (by decide)).2,
   (otp_only_for_owner_and_admin exBooking "u1" AuthRole.user).2 (Or.inl rfl)⟩

/-- C10 witness: candidate `p2` reads the sample unclaimed booking and gets
it OTP-stripped. -/
theorem candidate_can_read_booking_witness :
    getBookingRoute (some exBooking) "p2" AuthRole.provider
      = GetBookingResp.ok (bookingView exBooking false)
    ∧ (bookingView exBooking false).otp = none
    ∧ (bookingView exBooking false).status = exBooking.status :=
  candidate_can_read_booking exBooking "p2" (by decide) (by decide) (by decide)

/-- Per-row sweeping effect: a stale `PENDING_PAYMENT` row is set to
`EXPIRED` with the sweep timestamp, every other row is returned untouched. -/
theorem sweepOne_spec (now : Nat) (b : Booking) :
    (b.status = BookingState.PENDING_PAYMENT ∧ b.created_at + 86400 < now →
      sweepOne now b = { b with status := BookingState.EXPIRED, updated_at := now })
    ∧ (¬ (b.status = BookingState.PENDING_PAYMENT ∧ b.created_at + 86400 < now) →
      sweepOne now b = b) := by
  constructor <;> intro h <;> simp [sweepOne, h]

/-- The number of rows the sweep changes equals the number of stale
`PENDING_PAYMENT` rows. -/
theorem sweep_count_changed (now : Nat) (bookings : List Booking) :
    (bookings.zip (bookings.map (sweepOne now))).countP (fun pr => pr.2 != pr.1)
      = bookings.countP (fun b =>
          decide (b.status = BookingState.PENDING_PAYMENT ∧ b.created_at + 86400 < now)) := by
  induction bookings with
  | nil => rfl
  | cons b rest ih =>
    simp only [List.map_cons, List.zip_cons_cons, List.countP_cons]
    rw [ih]
    by_cases hc : b.status = BookingState.PENDING_PAYMENT ∧ b.created_at + 86400 < now
    · have hne : sweepOne now b ≠ b := by
        intro heq
        have hstat := congrArg Booking.status heq
        simp [sweepOne, hc] at hstat
      simp [hne, hc]
    · have heq : sweepOne now b = b := by simp [sweepOne, hc]
      simp [heq, hc]

/-- C9: the sweep keeps the table's rows, returns exactly the number of rows
it changed, sets `status = EXPIRED` (stamping `updated_at`) precisely on the
`PENDING_PAYMENT` rows older than 24 hours, and returns every other row —
other statuses or younger rows — unchanged. -/
theorem sweep_expires_exactly_stale (now : Nat) (bookings : List Booking) :
    (sweepExpiredBookings now bookings).2.length = bookings.length
    ∧ (sweepExpiredBookings now bookings).1
        = (bookings.zip (sweepExpiredBookings now bookings).2).countP
            (fun pr => pr.2 != pr.1)
    ∧ ∀ pr ∈ bookings.zip (sweepExpiredBookings now bookings).2,
        (pr.1.status = BookingState.PENDING_PAYMENT ∧ pr.1.created_at + 86400 < now →
          pr.2 = { pr.1 with status := BookingState.EXPIRED, updated_at := now })
        ∧ (¬ (pr.1.status = BookingState.PENDING_PAYMENT
              ∧ pr.1.created_at + 86400 < now) →
          pr.2 = pr.1) := by
  refine ⟨by simp [sweepExpiredBookings], ?_, ?_⟩
  · simp only [sweepExpiredBookings]
    exact (sweep_count_changed now bookings).symm
  · intro pr hpr
    have hzip : bookings.zip (bookings.map (sweepOne now))
        = bookings.map fun a => (a, sweepOne now a) := by
      have h := List.zip_map' id (sweepOne now) bookings
      simpa using h
    simp only [sweepExpiredBookings] at hpr
    rw [hzip] at hpr
    obtain ⟨a, _, rfl⟩ := List.mem_map.1 hpr
    exact sweepOne_spec now a

/-- C9 witness: of three sample bookings — a stale pending one, a fresh
pending one and a closed one — the sweep expires exactly the first. -/
theorem sweep_expires_exactly_stale_witness :
    (sweepExpiredBookings 100000
        [{ exBooking with status := BookingState.PENDING_PAYMENT, created_at := 0 },
         { exBooking with status := BookingState.PENDING_PAYMENT, created_at := 99000 },
         { exBooking with status := BookingState.CLOSED, created_at := 0 }]).2.length = 3
    ∧ (sweepExpiredBookings 100000
        [{ exBooking with status := BookingState.PENDING_PAYMENT, created_at := 0 },
         { exBooking with status := BookingState.PENDING_PAYMENT, created_at := 99000 },
         { exBooking with status := BookingState.CLOSED, created_at := 0 }]).1
        = ([{ exBooking with status := BookingState.PENDING_PAYMENT, created_at := 0 },
            { exBooking with status := BookingState.PENDING_PAYMENT, created_at := 99000 },
            { exBooking with status := BookingState.CLOSED, created_at := 0 }].zip
            (sweepExpiredBookings 100000
              [{ exBooking with status := BookingState.PENDING_PAYMENT, created_at := 0 },
               { exBooking with status := BookingState.PENDING_PAYMENT, created_at := 99000 },
               { exBooking with status := BookingState.CLOSED, created_at := 0 }]).2).countP
            (fun pr => pr.2 != pr.1)
    ∧ ∀ pr ∈ [{ exBooking with status := BookingState.PENDING_PAYMENT, created_at := 0 },
              { exBooking with status := BookingState.PENDING_PAYMENT, created_at := 99000 },
              { exBooking with status := BookingState.CLOSED, created_at := 0 }].zip
          (sweepExpiredBookings 100000
            [{ exBooking with status := BookingState.PENDING_PAYMENT, created_at := 0 },
             { exBooking with status := BookingState.PENDING_PAYMENT, created_at := 99000 },
             { exBooking with status := BookingState.CLOSED, created_at := 0 }]).2,
        (pr.1.status = BookingState.PENDING_PAYMENT ∧ pr.1.created_at + 86400 < 100000 →
          pr.2 = { pr.1 with status := BookingState.EXPIRED, updated_at := 100000 })
        ∧ (¬ (pr.1.status = BookingState.PENDING_PAYMENT
              ∧ pr.1.created_at + 86400 < 100000) →
          pr.2 = pr.1) :=
  sweep_expires_exactly_stale 100000
    [{ exBooking with status := BookingState.PENDING_PAYMENT, created_at := 0 },
     { exBooking with status := BookingState.PENDING_PAYMENT, created_at := 99000 },
     { exBooking with status := BookingState.CLOSED, created_at := 0 }]

end OzzServe
